import Mathlib

set_option maxHeartbeats 1000000

/- Verification development for the Telegram notification bot in bot.py.
The file embeds the data model (the three SQLAlchemy tables), the command
handlers add_api, remove_api, call_api, block_api and unblock_api, and the
periodic update checker check_api_updates, and proves or refutes the
specified properties about them. -/

/-- Values that the sqlite TEXT column last_data can hold besides NULL.
Python str and Python bytes pass through the sqlite driver unchanged (a
str is stored as TEXT, bytes as BLOB). Byte strings are modelled as Lean
strings; only equality on them is ever used. -/
inductive DBVal where
  | str (s : String)
  | bytes (b : String)
  deriving DecidableEq, Repr

/-- Python values that flow through the handlers: response.text is a str,
response.content is bytes, response.json() yields None, numbers, booleans,
strings or containers. Nested JSON containers behave, in every modelled
path, exactly like flat ones (they can never be bound to the TEXT column
and never compare equal to a stored TEXT or BLOB value), so container
elements are modelled as strings. -/
inductive PyVal where
  | str (s : String)
  | bytes (b : String)
  | pyNone
  | num (n : Int)
  | bool (b : Bool)
  | dict (fields : List (String × String))
  | list (xs : List String)
  deriving DecidableEq, Repr

/-- Python equality between a freshly computed value and the stored
last_data read back from the database (NULL, str or bytes). In Python a
dict, list, int or bool value obtained from response.json() never equals
a str or bytes value read from a TEXT column, str never equals bytes, and
None equals only None. -/
def pyEq : PyVal → Option DBVal → Bool
  | .str s, some (.str t) => s == t
  | .bytes b, some (.bytes c) => b == c
  | .pyNone, Option.none => true
  | _, _ => false

/-- Outcome of binding a Python value as the last_data parameter of an
INSERT or UPDATE through the sqlite driver. str and bytes pass through;
None becomes NULL; int and bool are accepted by the driver and converted
to text by the TEXT affinity of the VARCHAR column; a dict or a list
cannot be bound, so the commit raises. The outer none models that raise. -/
def bindValue : PyVal → Option (Option DBVal)
  | .str s => some (some (.str s))
  | .bytes b => some (some (.bytes b))
  | .pyNone => some Option.none
  | .num n => some (some (.str (toString n)))
  | .bool b => some (some (.str (if b then "1" else "0")))
  | .dict _ => Option.none
  | .list _ => Option.none

/-- A row of the user_apis table (class UserAPI, bot.py lines 21-26). -/
structure UserAPIRow where
  user_id : String
  api_name : String
  api_url : String
  deriving DecidableEq, Repr

/-- A row of the api_states table (class APIState, bot.py lines 34-39). -/
structure APIStateRow where
  user_id : String
  api_name : String
  last_data : Option DBVal
  deriving DecidableEq, Repr

/-- A row of the group_settings table (class GroupSettings, lines 28-32). -/
structure GroupSettingsRow where
  group_id : String
  blocked_api : Option String
  deriving DecidableEq, Repr

/-- The whole database: the three tables, each as a list of rows in id
(that is, insertion) order, which is the order query(...).all() and
query(...).first() observe. -/
structure DB where
  user_apis : List UserAPIRow
  api_states : List APIStateRow
  group_settings : List GroupSettingsRow
  deriving DecidableEq, Repr

def emptyDB : DB := { user_apis := [], api_states := [], group_settings := [] }

/-- Kinds of outbound messages produced by the handlers. audioK stands for
the audio send. -/
inductive MsgKind where
  | photo
  | video
  | audioK
  | document
  | message
  | reply
  deriving DecidableEq, Repr

/-- One outbound message attempt: destination chat, the api name it was
produced for, the send kind, and the value the message body was built
from. -/
structure Dispatch where
  chat : String
  api_name : String
  kind : MsgKind
  payload : PyVal
  deriving DecidableEq, Repr

/-- An HTTP response as the handlers observe it. text, jsonResult and
pilImage are deterministic functions of the body bytes (and headers), so
two fetches returning the same bytes, status and content type are
modelled by the same Response value. jsonResult is the outcome of
response.json(), Option.none meaning it raised on a malformed body.
pilImage is the PNG re-encoding produced by PIL Image.open and save,
Option.none meaning decoding raised. -/
structure Response where
  status_code : Nat
  content_type_header : String
  content : String
  text : String
  jsonResult : Option PyVal
  pilImage : Option String
  deriving Repr

/-- Whether the first list is a prefix of the second, by characters. -/
def listPrefix : List Char → List Char → Bool
  | [], _ => true
  | _ :: _, [] => false
  | a :: as, b :: bs => a == b && listPrefix as bs

/-- Whether the second list occurs as a contiguous sublist of the first. -/
def listContains : List Char → List Char → Bool
  | [], needle => needle.isEmpty
  | c :: t, needle => listPrefix needle (c :: t) || listContains t needle

/-- Python substring membership, pat in s. -/
def strContains (s pat : String) : Bool :=
  listContains s.data pat.data

/-- The lower() call applied to the Content-Type header. The headers the
program inspects are ASCII, for which Char.toLower agrees with Python
str.lower(). -/
def lowerStr (s : String) : String :=
  String.mk (s.data.map Char.toLower)

/-- The content types the update checker handles with a dedicated branch;
anything else falls into the final else that only logs a warning (bot.py
lines 232-233). -/
def recognizedKind (ct : String) : Bool :=
  strContains ct "image" || strContains ct "video" || strContains ct "audio" ||
  strContains ct "application" || strContains ct "octet-stream" ||
  strContains ct "text" || strContains ct "json"

/-- get_last_state (bot.py lines 173-176): first row of api_states
matching user_id and api_name; returns its last_data, or None when there
is no row. -/
def get_last_state (user_id api_name : String) (states : List APIStateRow) :
    Option DBVal :=
  match states.find? (fun st => st.user_id == user_id && st.api_name == api_name) with
  | some st => st.last_data
  | Option.none => Option.none

/-- Helper of save_last_state: overwrite last_data of the first matching
row, or append a fresh row when none matches. -/
def updateState (user_id api_name : String) (v : Option DBVal) :
    List APIStateRow → List APIStateRow
  | [] => [{ user_id := user_id, api_name := api_name, last_data := v }]
  | st :: rest =>
    if st.user_id == user_id && st.api_name == api_name then
      { st with last_data := v } :: rest
    else st :: updateState user_id api_name v rest

/-- save_last_state (bot.py lines 178-186): update the first matching row
or insert a new one, then commit. Returns Option.none when the commit
raises because the value cannot be bound to the String column. -/
def save_last_state (user_id api_name : String) (data : PyVal)
    (states : List APIStateRow) : Option (List APIStateRow) :=
  match bindValue data with
  | Option.none => Option.none
  | some v => some (updateState user_id api_name v states)

/-- Shared tail of every dispatching branch of the update checker loop
body: the await of the gateway send followed by save_last_state. When the
send raises (sendOk = false) the save statement is never reached; when
the save itself raises (unbindable value) the exception is swallowed by
the surrounding handler and the table is left unchanged. The send attempt
is recorded in either case. -/
def sendAndSave (api : UserAPIRow) (k : MsgKind) (payload toSave : PyVal)
    (sendOk : Bool) (states : List APIStateRow) :
    List APIStateRow × List Dispatch :=
  let d : Dispatch := { chat := api.user_id, api_name := api.api_name, kind := k, payload := payload }
  if sendOk then
    match save_last_state api.user_id api.api_name toSave states with
    | some s2 => (s2, [d])
    | Option.none => (states, [d])
  else (states, [d])

/-- The branch selection of the loop body of check_api_updates (bot.py
lines 199-233) for a 200 response: which send is performed, with which
message value and which value handed to save_last_state, or Option.none
when the iteration sends nothing (fingerprint unchanged, undecodable
image, raising json parse, or unrecognized content type). Note the branch
order of the source: the application and octet-stream test precedes the
text and json test, so a content type containing the word application is
handled as a document even when it also contains json. -/
def pollDecision (api : UserAPIRow) (r : Response) (states : List APIStateRow) :
    Option (MsgKind × PyVal × PyVal) :=
  let last := get_last_state api.user_id api.api_name states
  let ct := lowerStr r.content_type_header
  if strContains ct "image" then
    if !(pyEq (.bytes r.content) last) then
      match r.pilImage with
      | Option.none => Option.none
      | some png => some (.photo, .bytes png, .bytes r.content)
    else Option.none
  else if strContains ct "video" then
    if !(pyEq (.bytes r.content) last) then
      some (.video, .bytes r.content, .bytes r.content)
    else Option.none
  else if strContains ct "audio" then
    if !(pyEq (.bytes r.content) last) then
      some (.audioK, .bytes r.content, .bytes r.content)
    else Option.none
  else if strContains ct "application" || strContains ct "octet-stream" then
    if !(pyEq (.bytes r.content) last) then
      some (.document, .bytes r.content, .bytes r.content)
    else Option.none
  else if strContains ct "text" || strContains ct "json" then
    match (if strContains ct "json" then r.jsonResult else some (.str r.text)) with
    | Option.none => Option.none
    | some data =>
      if !(pyEq data last) then some (.message, data, data) else Option.none
  else Option.none

/-- One iteration of the for loop of check_api_updates (bot.py lines
194-235) for a single registered endpoint. fetched is the outcome of
requests.get, Option.none meaning it raised; sendOk tells whether the
outbound gateway send succeeds or raises. Every exception inside the loop
body is swallowed by the enclosing try and except, which only logs.
Returns the updated api_states table and the list of send attempts. -/
def pollStep (api : UserAPIRow) (fetched : Option Response) (sendOk : Bool)
    (states : List APIStateRow) : List APIStateRow × List Dispatch :=
  match fetched with
  | Option.none => (states, [])
  | some r =>
    if r.status_code == 200 then
      match pollDecision api r states with
      | Option.none => (states, [])
      | some (k, payload, toSave) => sendAndSave api k payload toSave sendOk states
    else (states, [])

/-- The body of one sweep of check_api_updates over the snapshot list of
registered endpoints, threading the api_states table and collecting every
send attempt. fetch i and sendOk i are the network outcomes for the
endpoint at position i of the snapshot. -/
def runSweepAux (fetch : Nat → Option Response) (sendOk : Nat → Bool) :
    Nat → List UserAPIRow → List APIStateRow → List APIStateRow × List Dispatch
  | _, [], states => (states, [])
  | i, api :: rest, states =>
    let p1 := pollStep api (fetch i) (sendOk i) states
    let p2 := runSweepAux fetch sendOk (i + 1) rest p1.1
    (p2.1, p1.2 ++ p2.2)

/-- One full sweep of check_api_updates (bot.py lines 192-235): read the
user_apis snapshot, process every endpoint in order, return the database
with the updated api_states table together with all send attempts. -/
def runSweep (fetch : Nat → Option Response) (sendOk : Nat → Bool) (db : DB) :
    DB × List Dispatch :=
  let p := runSweepAux fetch sendOk 0 db.user_apis db.api_states
  ({ db with api_states := p.1 }, p.2)

/-- add_api handler (bot.py lines 55-65): with fewer than two arguments it
replies with the usage line and changes nothing; otherwise it appends a
new UserAPI row built from the first two arguments, with no validation of
the url whatsoever, and replies with the bound confirmation. -/
def add_api (user_id : String) (args : List String) (db : DB) : DB × Dispatch :=
  match args with
  | name :: api_url :: _ =>
    ({ db with user_apis := db.user_apis ++ [{ user_id := user_id, api_name := name, api_url := api_url }] },
     { chat := user_id, api_name := name, kind := .reply, payload := .str ("API " ++ name ++ " 已绑定！") })
  | _ =>
    (db, { chat := user_id, api_name := "", kind := .reply, payload := .str "用法: /add_api <名称> <API_URL>" })

/-- remove_api handler (bot.py lines 67-81): takes a NAME (not an index),
deletes the first UserAPI row of this user with that name when one
exists, otherwise replies that the name was not found and changes
nothing. -/
def remove_api (user_id : String) (args : List String) (db : DB) : DB × Dispatch :=
  match args with
  | [] =>
    (db, { chat := user_id, api_name := "", kind := .reply, payload := .str "用法: /remove_api <名称>" })
  | name :: _ =>
    match db.user_apis.find? (fun a => a.user_id == user_id && a.api_name == name) with
    | some _ =>
      ({ db with user_apis := db.user_apis.eraseP (fun a => a.user_id == user_id && a.api_name == name) },
       { chat := user_id, api_name := name, kind := .reply, payload := .str ("API " ++ name ++ " 已移除！") })
    | Option.none =>
      (db, { chat := user_id, api_name := name, kind := .reply, payload := .str ("未找到名为 " ++ name ++ " 的 API！") })

/-- call_api handler (bot.py lines 83-131). Returns Option.none when an
exception escapes the handler, which happens exactly when requests.get
raises, because that call sits outside the try block; otherwise the list
of outbound messages. Gateway sends inside the try block are assumed not
to raise, since a raise there would only replace the media message by the
processing-failure reply and no claim depends on it. The str of the
caught exception appended to the failure reply is elided. -/
def call_api (user_id : String) (args : List String) (fetched : Option Response)
    (db : DB) : Option (List Dispatch) :=
  match args with
  | [] => some [{ chat := user_id, api_name := "", kind := .reply, payload := .str "用法: /call_api <名称>" }]
  | name :: _ =>
    match db.user_apis.find? (fun a => a.user_id == user_id && a.api_name == name) with
    | Option.none =>
      some [{ chat := user_id, api_name := name, kind := .reply, payload := .str ("未找到名为 " ++ name ++ " 的 API！") }]
    | some _ =>
      match fetched with
      | Option.none => Option.none
      | some r =>
        if r.status_code == 200 then
          let ct := lowerStr r.content_type_header
          if strContains ct "image" then
            match r.pilImage with
            | Option.none => some [{ chat := user_id, api_name := name, kind := .reply, payload := .str "API 数据处理失败" }]
            | some png => some [{ chat := user_id, api_name := name, kind := .photo, payload := .bytes png }]
          else if strContains ct "video" then
            some [{ chat := user_id, api_name := name, kind := .video, payload := .bytes r.content }]
          else if strContains ct "audio" then
            some [{ chat := user_id, api_name := name, kind := .audioK, payload := .bytes r.content }]
          else if strContains ct "application" || strContains ct "octet-stream" then
            some [{ chat := user_id, api_name := name, kind := .document, payload := .bytes r.content }]
          else if strContains ct "text" || strContains ct "json" then
            match (if strContains ct "json" then r.jsonResult else some (.str r.text)) with
            | Option.none => some [{ chat := user_id, api_name := name, kind := .reply, payload := .str "API 数据处理失败" }]
            | some data => some [{ chat := user_id, api_name := name, kind := .reply, payload := data }]
          else
            some [{ chat := user_id, api_name := name, kind := .reply, payload := .str ("未知内容类型: " ++ ct) }]
        else
          some [{ chat := user_id, api_name := name, kind := .reply, payload := .str ("API 调用失败，状态码: " ++ toString r.status_code) }]

/-- block_api handler (bot.py lines 133-151): only in a group chat; adds
a (group_id, blocked_api) row to group_settings unless one already
exists. It writes group_settings and touches nothing else; no other code
path of the program ever reads the group_settings table. -/
def block_api (chat_type : String) (group_id : String) (args : List String)
    (db : DB) : DB × Dispatch :=
  if chat_type != "group" then
    (db, { chat := group_id, api_name := "", kind := .reply, payload := .str "此命令只能在群组中使用。" })
  else
    match args with
    | [] =>
      (db, { chat := group_id, api_name := "", kind := .reply, payload := .str "用法: /block_api <API名称>" })
    | name :: _ =>
      match db.group_settings.find? (fun g => g.group_id == group_id && g.blocked_api == some name) with
      | Option.none =>
        ({ db with group_settings := db.group_settings ++ [{ group_id := group_id, blocked_api := some name }] },
         { chat := group_id, api_name := name, kind := .reply, payload := .str ("API " ++ name ++ " 已被屏蔽！") })
      | some _ =>
        (db, { chat := group_id, api_name := name, kind := .reply, payload := .str ("API " ++ name ++ " 已经在屏蔽列表中！") })

/-- unblock_api handler (bot.py lines 153-170): only in a group chat;
deletes the first matching (group_id, blocked_api) row when present. It
writes group_settings and touches nothing else. -/
def unblock_api (chat_type : String) (group_id : String) (args : List String)
    (db : DB) : DB × Dispatch :=
  if chat_type != "group" then
    (db, { chat := group_id, api_name := "", kind := .reply, payload := .str "此命令只能在群组中使用。" })
  else
    match args with
    | [] =>
      (db, { chat := group_id, api_name := "", kind := .reply, payload := .str "用法: /unblock_api <API名称>" })
    | name :: _ =>
      match db.group_settings.find? (fun g => g.group_id == group_id && g.blocked_api == some name) with
      | some _ =>
        ({ db with group_settings := db.group_settings.eraseP (fun g => g.group_id == group_id && g.blocked_api == some name) },
         { chat := group_id, api_name := name, kind := .reply, payload := .str ("API " ++ name ++ " 已解除屏蔽！") })
      | Option.none =>
        (db, { chat := group_id, api_name := name, kind := .reply, payload := .str ("API " ++ name ++ " 不在屏蔽列表中！") })

/-- Process startup as lines 46-49 of bot.py perform it: create_engine on
DATABASE_URL, which defaults to the on-disk file sqlite:///bot.db, then
Base.metadata.create_all, which creates missing tables and preserves every
existing row. Startup therefore observes whatever database file already
exists; only a fresh deployment with no file starts from empty tables. -/
def startupState : Option DB → DB
  | some persisted => persisted
  | Option.none => emptyDB

/- Concrete fixtures used by the counterexamples and witnesses. -/

def apiU : UserAPIRow := { user_id := "u", api_name := "a", api_url := "http://x" }

def db0 : DB := { user_apis := [apiU], api_states := [], group_settings := [] }

/-- A plain text response, body hi. -/
def rTextHi : Response :=
  { status_code := 200, content_type_header := "text/plain", content := "hi",
    text := "hi", jsonResult := Option.none, pilImage := Option.none }

/-- A failing response with status 404. -/
def r404 : Response :=
  { status_code := 404, content_type_header := "text/plain", content := "no",
    text := "no", jsonResult := Option.none, pilImage := Option.none }

/-- A response of the legacy json content type text/json whose body is
the object with the single pair a maps to 1; response.json() returns the
parsed dict. -/
def rJsonDict : Response :=
  { status_code := 200, content_type_header := "text/json",
    content := "\x7b\"a\": \"1\"\x7d", text := "\x7b\"a\": \"1\"\x7d",
    jsonResult := some (.dict [("a", "1")]), pilImage := Option.none }

/-- The response with body containing id 1 and title A, declared as
application/json. -/
def rIdA : Response :=
  { status_code := 200, content_type_header := "application/json",
    content := "\x7b\"id\": \"1\", \"title\": \"A\"\x7d",
    text := "\x7b\"id\": \"1\", \"title\": \"A\"\x7d",
    jsonResult := some (.dict [("id", "1"), ("title", "A")]),
    pilImage := Option.none }

/-- The response with the same id 1 but title B. -/
def rIdB : Response :=
  { status_code := 200, content_type_header := "application/json",
    content := "\x7b\"id\": \"1\", \"title\": \"B\"\x7d",
    text := "\x7b\"id\": \"1\", \"title\": \"B\"\x7d",
    jsonResult := some (.dict [("id", "1"), ("title", "B")]),
    pilImage := Option.none }

/-- A json response whose body is the literal null; response.json()
returns Python None. -/
def rNull : Response :=
  { status_code := 200, content_type_header := "text/json", content := "null",
    text := "null", jsonResult := some .pyNone, pilImage := Option.none }

/-- A response with a content type that matches none of the handled
branches. -/
def rWeird : Response :=
  { status_code := 200, content_type_header := "x-custom/weird",
    content := "hello", text := "hello", jsonResult := Option.none,
    pilImage := Option.none }

/-- Registry fixture for the removal claim: two endpoints of user u, the
first NAMED 2, the second NAMED 1, so that name-based and index-based
removal disagree. -/
def db7 : DB :=
  { user_apis := [{ user_id := "u", api_name := "2", api_url := "http://x" },
                  { user_id := "u", api_name := "1", api_url := "http://y" }],
    api_states := [], group_settings := [] }

/-- A persisted database holding one endpoint and one stored fingerprint,
as left behind by an earlier run of the process. -/
def db9 : DB :=
  { user_apis := [apiU],
    api_states := [{ user_id := "u", api_name := "a", last_data := some (.str "s") }],
    group_settings := [] }

/-- A second endpoint of the same user, used by the sweep-containment
claim. -/
def apiB : UserAPIRow := { user_id := "u", api_name := "b", api_url := "http://y" }

/-- Registry with two endpoints, the failing one first. -/
def dbAB : DB := { user_apis := [apiU, apiB], api_states := [], group_settings := [] }

/-- Condition under which the update checker, at unset stored state, takes
a dispatching branch for a 200 response: an image content type with
decodable bytes, a non-image media content type, or a text or json
content type whose computed data value is not Python None (which would
compare equal to the unset NULL state) and whose json parse, when
attempted, does not raise. -/
def firstFetchDispatchable (r : Response) : Bool :=
  let ct := lowerStr r.content_type_header
  (strContains ct "image" && r.pilImage.isSome) ||
  (!strContains ct "image" &&
    (strContains ct "video" || strContains ct "audio" ||
     strContains ct "application" || strContains ct "octet-stream")) ||
  (!strContains ct "image" && !strContains ct "video" && !strContains ct "audio" &&
   !strContains ct "application" && !strContains ct "octet-stream" &&
   (strContains ct "text" || strContains ct "json") &&
   (if strContains ct "json" then
      (match r.jsonResult with
       | some d => d != PyVal.pyNone
       | Option.none => false)
    else true))

/- Helper lemmas shared by the claim proofs. -/

theorem sendAndSave_snd (api : UserAPIRow) (k : MsgKind) (p t : PyVal)
    (sOk : Bool) (states : List APIStateRow) :
    (sendAndSave api k p t sOk states).2
      = [{ chat := api.user_id, api_name := api.api_name, kind := k, payload := p }] := by
  unfold sendAndSave
  cases sOk with
  | false => rfl
  | true =>
    cases h : save_last_state api.user_id api.api_name t states with
    | none => simp [h]
    | some s2 => simp [h]

theorem pollStep_fetch_none (api : UserAPIRow) (sOk : Bool)
    (states : List APIStateRow) :
    pollStep api Option.none sOk states = (states, []) := rfl

theorem pollStep_not200 (api : UserAPIRow) (r : Response) (sOk : Bool)
    (states : List APIStateRow) (h : r.status_code ≠ 200) :
    pollStep api (some r) sOk states = (states, []) := by
  unfold pollStep
  simp [h]

theorem pyEq_ne_pyNone_none {d : PyVal} (h : d ≠ PyVal.pyNone) :
    pyEq d Option.none = false := by
  cases d <;> simp_all [pyEq]

/-- C1: the claim says that fetching the same response bytes twice in a
row triggers at most one dispatch, the second fetch taking the Unchanged
path. The code violates it: for a json content type the computed value is
the parsed dict, which the commit of save_last_state cannot bind to the
String column (the raise is swallowed), so the state is never stored and
the identical second fetch dispatches again. This theorem evaluates the
checker at the failing input: one endpoint, both sweeps returning status
200, content type text/json, body the object mapping a to 1, all gateway
sends succeeding; both sweeps produce exactly one dispatch. -/
theorem c1_same_json_bytes_redispatch :
    (runSweep (fun _ => some rJsonDict) (fun _ => true) db0).2.length = 1
    ∧ (runSweep (fun _ => some rJsonDict) (fun _ => true)
        (runSweep (fun _ => some rJsonDict) (fun _ => true) db0).1).2.length = 1
    ∧ (runSweep (fun _ => some rJsonDict) (fun _ => true) db0).1 = db0 := by
  constructor
  · decide
  constructor
  · decide
  · decide

/-- C2 counterexample: the claim says that after fetching the object with
id 1 and title A, a later fetch of the object with id 1 and title B is
classified Unchanged (identity field wins) and dispatches nothing. In the
code the identity field is never consulted: an application/json response
is handled by the application branch, fingerprinted by its exact bytes,
so the second sweep dispatches. -/
theorem c2_counterexample :
    (runSweep (fun _ => some rIdB) (fun _ => true)
      (runSweep (fun _ => some rIdA) (fun _ => true) db0).1).2 ≠ [] := by
  decide

/-- C2 amended: the fingerprint of an application/json response is the
exact byte content, not the identity field: after the sweep that fetched
the object with id 1 and title A, the sweep fetching id 1 with title B is
classified Changed, sends exactly one document message built from the new
bytes, and stores the new bytes as the fingerprint. -/
theorem c2_fingerprint_is_bytes :
    (runSweep (fun _ => some rIdB) (fun _ => true)
      (runSweep (fun _ => some rIdA) (fun _ => true) db0).1).2
      = [{ chat := "u", api_name := "a", kind := MsgKind.document,
           payload := PyVal.bytes rIdB.content }]
    ∧ get_last_state "u" "a"
        (runSweep (fun _ => some rIdB) (fun _ => true)
          (runSweep (fun _ => some rIdA) (fun _ => true) db0).1).1.api_states
      = some (DBVal.bytes rIdB.content) := by
  constructor
  · decide
  · decide

/-- C4 counterexample: the claim says the new fingerprint is persisted
even when the gateway send fails, so a delivery error is never
re-notified. In the code the save statement sits after the await of the
send, so a raising send skips it: with one endpoint returning plain text
hi and a failing gateway, the first sweep attempts one send and leaves
the state table empty, and the next sweep re-notifies the same change. -/
theorem c4_counterexample :
    (runSweep (fun _ => some rTextHi) (fun _ => false) db0).2.length = 1
    ∧ (runSweep (fun _ => some rTextHi) (fun _ => false) db0).1.api_states = []
    ∧ (runSweep (fun _ => some rTextHi) (fun _ => true)
        (runSweep (fun _ => some rTextHi) (fun _ => false) db0).1).2.length = 1 := by
  refine ⟨by decide, by decide, by decide⟩

/-- C4 amended: the fingerprint is persisted only after a successful
send. When the gateway send raises, the state table is left exactly as it
was, and the send attempts of a step do not depend on whether the send
succeeds, so the same change is attempted again on the next sweep. -/
theorem c4_save_only_after_send (api : UserAPIRow) (fetched : Option Response)
    (states : List APIStateRow) :
    (pollStep api fetched false states).1 = states
    ∧ (pollStep api fetched false states).2 = (pollStep api fetched true states).2 := by
  cases fetched with
  | none => exact ⟨rfl, rfl⟩
  | some r =>
    unfold pollStep
    by_cases h : (r.status_code == 200) = true
    · simp only [h, if_true]
      cases hd : pollDecision api r states with
      | none => exact ⟨rfl, rfl⟩
      | some kpt =>
        obtain ⟨k, p, t⟩ := kpt
        exact ⟨rfl, by rw [sendAndSave_snd, sendAndSave_snd]⟩
    · simp only [Bool.not_eq_true] at h
      simp [h]

/- Additional helper lemmas for the remaining claims. -/

theorem pollDecision_first_fetch (api : UserAPIRow) (r : Response)
    (states : List APIStateRow)
    (hunset : get_last_state api.user_id api.api_name states = Option.none)
    (hgood : firstFetchDispatchable r = true) :
    ∃ k p t, pollDecision api r states = some (k, p, t) := by
  simp only [firstFetchDispatchable, Bool.or_eq_true, Bool.and_eq_true,
    Bool.not_eq_true'] at hgood
  unfold pollDecision
  rw [hunset]
  rcases hgood with (⟨himg, hpil⟩ | ⟨himg, hmedia⟩) |
    ⟨⟨⟨⟨⟨⟨himg, hvid⟩, haud⟩, happ⟩, hoct⟩, htj⟩, hjson⟩
  · obtain ⟨png, hp⟩ := Option.isSome_iff_exists.mp hpil
    simp [himg, hp, pyEq]
  · rcases hmedia with ((hv | ha) | hap) | ho <;>
      simp only [himg, Bool.false_eq_true, if_false] <;>
      split_ifs <;>
      simp_all [pyEq]
  · by_cases hj : strContains (lowerStr r.content_type_header) "json" = true
    · simp only [hj, if_true] at hjson
      cases hr : r.jsonResult with
      | none => rw [hr] at hjson; exact absurd hjson (by simp)
      | some d =>
        rw [hr] at hjson
        simp only [bne_iff_ne, ne_eq] at hjson
        simp [himg, hvid, haud, happ, hoct, hj, hr, pyEq_ne_pyNone_none hjson]
    · simp only [Bool.not_eq_true] at hj
      rcases htj with ht | ht
      · simp [himg, hvid, haud, happ, hoct, ht, hj, pyEq]
      · rw [ht] at hj; exact absurd hj (by simp)

/-- C3 counterexample: the claim says the first successful fetch for an
endpoint with unset fingerprint always triggers exactly one dispatch
regardless of content. A json response whose body is the literal null
parses to Python None, which compares equal to the unset NULL state, so
the first fetch dispatches nothing: stored state is unset, the content
type text/json is recognized, the status is 200, yet the sweep sends
zero messages. -/
theorem c3_counterexample :
    get_last_state "u" "a" db0.api_states = Option.none
    ∧ rNull.status_code = 200
    ∧ recognizedKind (lowerStr rNull.content_type_header) = true
    ∧ (runSweep (fun _ => some rNull) (fun _ => true) db0).2 = [] := by
  refine ⟨by decide, by decide, by decide, by decide⟩

/-- C3 amended: the first successful fetch for an endpoint whose stored
fingerprint is unset triggers exactly one send attempt, addressed to the
owning chat, PROVIDED the iteration can actually produce a value that
differs from the unset marker: the image bytes decode when the content
type is an image one, the json parse succeeds and yields a value other
than null when the json parse is used, and in the remaining recognized
cases unconditionally. Without that proviso the claim fails, as the
counterexample shows. -/
theorem c3_first_fetch_amended (api : UserAPIRow) (r : Response) (sOk : Bool)
    (states : List APIStateRow)
    (h200 : r.status_code = 200)
    (hunset : get_last_state api.user_id api.api_name states = Option.none)
    (hgood : firstFetchDispatchable r = true) :
    (pollStep api (some r) sOk states).2.length = 1
    ∧ ∀ d ∈ (pollStep api (some r) sOk states).2, d.chat = api.user_id := by
  obtain ⟨k, p, t, hd⟩ := pollDecision_first_fetch api r states hunset hgood
  unfold pollStep
  simp [h200, hd, sendAndSave_snd]

/-- C3 witness: the amended first-fetch theorem applied to a concrete
plain-text response at unset state. -/
theorem c3_witness :
    (pollStep apiU (some rTextHi) true []).2.length = 1
    ∧ ∀ d ∈ (pollStep apiU (some rTextHi) true []).2, d.chat = apiU.user_id :=
  c3_first_fetch_amended apiU rTextHi true [] (by decide) (by decide) (by decide)

/-- C5 counterexample: the claim says a response of unrecognized content
kind always yields a raw-data text payload that is dispatched. In the
code the update checker only logs a warning and dispatches nothing, and
the interactive call path replies with an unknown-content-type notice
that does not carry the body: at a concrete unrecognized response the
sweep step sends zero messages. -/
theorem c5_counterexample :
    pollStep apiU (some rWeird) true [] = ([], [])
    ∧ call_api "u" ["a"] (some rWeird) db0
      = some [{ chat := "u", api_name := "a", kind := MsgKind.reply,
                payload := PyVal.str ("未知内容类型: " ++ lowerStr rWeird.content_type_header) }] := by
  refine ⟨by decide, by decide⟩

/-- C5 amended: classification of an unrecognized content kind never
raises, but nothing is dispatched by the update checker: for every 200
response whose lowered content type matches none of the handled kinds,
the sweep step leaves the state table unchanged and sends no message
(the response is discarded with a logged warning). -/
theorem c5_unrecognized_no_dispatch (api : UserAPIRow) (r : Response)
    (sOk : Bool) (states : List APIStateRow)
    (h200 : r.status_code = 200)
    (hun : recognizedKind (lowerStr r.content_type_header) = false) :
    pollStep api (some r) sOk states = (states, []) := by
  simp only [recognizedKind, Bool.or_eq_false_iff] at hun
  obtain ⟨⟨⟨⟨⟨⟨h1, h2⟩, h3⟩, h4⟩, h5⟩, h6⟩, h7⟩ := hun
  unfold pollStep pollDecision
  simp [h200, h1, h2, h3, h4, h5, h6, h7]

/-- C5 witness: the amended no-dispatch theorem applied to the concrete
unrecognized response with a failing gateway. -/
theorem c5_witness : pollStep apiU (some rWeird) false [] = ([], []) :=
  c5_unrecognized_no_dispatch apiU rWeird false [] (by decide) (by decide)

/-- C6 counterexample: the claim says add with the empty url fails with a
ValidationError and does not register the endpoint. The code performs no
validation at all: adding the empty url on the empty registry appends the
endpoint and replies with the bound confirmation. -/
theorem c6_counterexample :
    add_api "u" ["a", ""] emptyDB
      = ({ user_apis := [{ user_id := "u", api_name := "a", api_url := "" }],
           api_states := [], group_settings := [] },
         { chat := "u", api_name := "a", kind := MsgKind.reply,
           payload := PyVal.str ("API " ++ "a" ++ " 已绑定！") }) := by
  decide

/-- C6 amended: the add operation never fails and never validates the
url: for every user, every url including the empty string and every
registry, it appends the new endpoint row and acknowledges it, and it
leaves the state table untouched, so a first-registered name has an
unset fingerprint. -/
theorem c6_add_never_validates (uid name url : String) (rest : List String)
    (db : DB) :
    add_api uid (name :: url :: rest) db
      = ({ db with user_apis := db.user_apis ++ [{ user_id := uid, api_name := name, api_url := url }] },
         { chat := uid, api_name := name, kind := MsgKind.reply,
           payload := PyVal.str ("API " ++ name ++ " 已绑定！") })
    ∧ (add_api uid (name :: url :: rest) db).1.api_states = db.api_states :=
  ⟨rfl, rfl⟩

/-- C7 counterexample: the claim says remove takes a 1-based index and
removes the endpoint at that position. On a registry whose first endpoint
is NAMED 2 and whose second is NAMED 1, removing with argument 1 keeps
the first endpoint and deletes the second: the argument is matched as a
name, not as a position. -/
theorem c7_counterexample :
    db7.user_apis
      = [{ user_id := "u", api_name := "2", api_url := "http://x" },
         { user_id := "u", api_name := "1", api_url := "http://y" }]
    ∧ (remove_api "u" ["1"] db7).1.user_apis
      = [{ user_id := "u", api_name := "2", api_url := "http://x" }] := by
  refine ⟨by decide, by decide⟩

/-- C7 amended: the remove operation takes a NAME. When no endpoint of
the chat carries that name (in particular on an empty registry, for any
argument such as 99) it replies not-found and leaves the registry
unchanged; when one does, it removes the first endpoint with that name,
shrinking the list by exactly one, and acknowledges the removal. -/
theorem c7_remove_by_name (uid name : String) (rest : List String) (db : DB) :
    (db.user_apis.find? (fun a => a.user_id == uid && a.api_name == name) = Option.none →
      remove_api uid (name :: rest) db
        = (db, { chat := uid, api_name := name, kind := MsgKind.reply,
                 payload := PyVal.str ("未找到名为 " ++ name ++ " 的 API！") }))
    ∧ (∀ row, db.user_apis.find? (fun a => a.user_id == uid && a.api_name == name) = some row →
        (remove_api uid (name :: rest) db).1.user_apis
          = db.user_apis.eraseP (fun a => a.user_id == uid && a.api_name == name)
        ∧ (remove_api uid (name :: rest) db).1.user_apis.length + 1 = db.user_apis.length
        ∧ (remove_api uid (name :: rest) db).2
          = { chat := uid, api_name := name, kind := MsgKind.reply,
              payload := PyVal.str ("API " ++ name ++ " 已移除！") }) := by
  constructor
  · intro h
    simp only [remove_api]
    rw [h]
  · intro row h
    have hmem : row ∈ db.user_apis := List.mem_of_find?_eq_some h
    have hp := List.find?_some h
    simp only [remove_api]
    rw [h]
    refine ⟨rfl, ?_, rfl⟩
    simpa using List.length_eraseP_add_one hmem hp

/-- C7 witness: removing name 99 on the empty registry replies not-found
and leaves the registry unchanged. -/
theorem c7_witness :
    remove_api "u" ["99"] emptyDB
      = (emptyDB, { chat := "u", api_name := "99", kind := MsgKind.reply,
                    payload := PyVal.str ("未找到名为 " ++ "99" ++ " 的 API！") }) :=
  (c7_remove_by_name "u" "99" [] emptyDB).1 (by decide)

/-- C8: per-endpoint failure containment. For a sweep over two registered
endpoints where the first one fails (its requests.get raises, or returns
a non-200 status), the sweep still runs to completion and its send
attempts are exactly those of the second endpoint's own step: whatever
the second endpoint would dispatch (in particular a changed-content
message) is dispatched. -/
theorem c8_failure_containment (A B : UserAPIRow) (fetchA fetchB : Option Response)
    (sOk : Nat → Bool) (db : DB)
    (hdb : db.user_apis = [A, B])
    (hA : fetchA = Option.none ∨ ∃ r, fetchA = some r ∧ r.status_code ≠ 200) :
    (runSweep (fun i => if i == 0 then fetchA else fetchB) sOk db).2
      = (pollStep B fetchB (sOk 1) db.api_states).2 := by
  have hstep : pollStep A fetchA (sOk 0) db.api_states = (db.api_states, []) := by
    rcases hA with h | ⟨r, hr, hs⟩
    · rw [h]; rfl
    · rw [hr]; exact pollStep_not200 A r (sOk 0) db.api_states hs
  unfold runSweep
  rw [hdb]
  simp [runSweepAux, hstep]

/-- C8 witness: the containment theorem applied to the concrete registry
with two endpoints where the first fetch returns 404 and the second
returns changed plain text; the sweep dispatches exactly the message of
the second endpoint. -/
theorem c8_witness :
    (runSweep (fun i => if i == 0 then some r404 else some rTextHi)
        (fun _ => true) dbAB).2
      = (pollStep apiB (some rTextHi) true dbAB.api_states).2 :=
  c8_failure_containment apiU apiB (some r404) (some rTextHi) (fun _ => true)
    dbAB (by decide) (Or.inr ⟨r404, rfl, by decide⟩)

/-- C9 counterexample: the claim says registry state is memory-resident,
initialized empty at every process startup and never persisted. The code
stores it through SQLAlchemy in the database named by DATABASE_URL,
defaulting to the on-disk file sqlite:///bot.db, and startup only creates
missing tables: starting with an existing database file, the registry is
NOT empty and the previously stored fingerprint is still readable. -/
theorem c9_counterexample :
    startupState (some db9) ≠ emptyDB
    ∧ (startupState (some db9)).user_apis = [apiU]
    ∧ get_last_state "u" "a" (startupState (some db9)).api_states
      = some (DBVal.str "s") := by
  refine ⟨by decide, by decide, by decide⟩

/-- C9 amended: registry state lives in the configured SQL database (by
default the sqlite file bot.db): startup preserves every row of an
existing database, so watched endpoints and fingerprints persist across
restarts, and only a fresh deployment with no existing file starts from
empty tables. -/
theorem c9_state_persists (d : DB) :
    startupState (some d) = d ∧ startupState Option.none = emptyDB :=
  ⟨rfl, rfl⟩

/- Helper lemmas for the blocking noninterference claim. -/

theorem block_api_only_group_settings (ct gid : String) (args : List String)
    (db : DB) :
    (block_api ct gid args db).1.user_apis = db.user_apis
    ∧ (block_api ct gid args db).1.api_states = db.api_states := by
  unfold block_api
  split
  · exact ⟨rfl, rfl⟩
  · cases args with
    | nil => exact ⟨rfl, rfl⟩
    | cons name rest =>
      cases h : db.group_settings.find? (fun g => g.group_id == gid && g.blocked_api == some name) with
      | none => simp [h]
      | some g => simp [h]

theorem unblock_api_only_group_settings (ct gid : String) (args : List String)
    (db : DB) :
    (unblock_api ct gid args db).1.user_apis = db.user_apis
    ∧ (unblock_api ct gid args db).1.api_states = db.api_states := by
  unfold unblock_api
  split
  · exact ⟨rfl, rfl⟩
  · cases args with
    | nil => exact ⟨rfl, rfl⟩
    | cons name rest =>
      cases h : db.group_settings.find? (fun g => g.group_id == gid && g.blocked_api == some name) with
      | none => simp [h]
      | some g => simp [h]

theorem runSweep_dispatch_congr (fetch : Nat → Option Response)
    (sOk : Nat → Bool) {db1 db2 : DB}
    (h1 : db1.user_apis = db2.user_apis) (h2 : db1.api_states = db2.api_states) :
    (runSweep fetch sOk db1).2 = (runSweep fetch sOk db2).2 := by
  unfold runSweep
  rw [h1, h2]

theorem call_api_congr (uid : String) (args : List String) (r : Option Response)
    {db1 db2 : DB} (h1 : db1.user_apis = db2.user_apis) :
    call_api uid args r db1 = call_api uid args r db2 := by
  unfold call_api
  rw [h1]

/-- C10: the group_settings records written by block_api and removed by
unblock_api are never read by any dispatch path. For every database, the
send attempts of a poller sweep and the complete output of call_api are
unchanged by any preceding block_api or unblock_api command: blocking an
API never suppresses a notification. -/
theorem c10_blocking_noninterference (ct gid : String) (args : List String)
    (fetch : Nat → Option Response) (sOk : Nat → Bool) (uid : String)
    (cargs : List String) (r : Option Response) (db : DB) :
    (runSweep fetch sOk (block_api ct gid args db).1).2 = (runSweep fetch sOk db).2
    ∧ call_api uid cargs r (block_api ct gid args db).1 = call_api uid cargs r db
    ∧ (runSweep fetch sOk (unblock_api ct gid args db).1).2 = (runSweep fetch sOk db).2
    ∧ call_api uid cargs r (unblock_api ct gid args db).1 = call_api uid cargs r db := by
  obtain ⟨hb1, hb2⟩ := block_api_only_group_settings ct gid args db
  obtain ⟨hu1, hu2⟩ := unblock_api_only_group_settings ct gid args db
  exact ⟨runSweep_dispatch_congr fetch sOk hb1 hb2,
         call_api_congr uid cargs r hb1,
         runSweep_dispatch_congr fetch sOk hu1 hu2,
         call_api_congr uid cargs r hu1⟩
